import Mathlib

/-!
Verification of the response-ingestion and state pipeline of the
Optimal-Google-Map-Route-for-Running-Errands front-end.

The repository contains two near-duplicate top-level components:
`ErrandOS` (src/index.tsx) and `ErrandOptimizer` (src/unnamed/part_000).
Both are embedded below where they differ.  JavaScript strings are
modelled as `List Char`; JS exceptions as `Except`; the host builtins
`JSON.parse` and the generative-AI call are abstracted as parameters
(`parse`, `svc`), since their code is not part of the repository.
-/

/-! ## JS string primitives used by `extractJSON` (src/index.tsx lines 56-67) -/

/-- The backtick character, written via its code point. -/
def backtick : Char := Char.ofNat 96

/-- Whitespace test used to model `String.prototype.trim`. -/
def isJsSpace (c : Char) : Bool := c.isWhitespace

/-- `text.trim()`: drop leading and trailing whitespace. -/
def trimChars (l : List Char) : List Char :=
  ((l.dropWhile isJsSpace).reverse.dropWhile isJsSpace).reverse

/-- Fuel-indexed worker for `stripPat`; the fuel starts at the length of the
string, which bounds the number of steps. -/
def stripPatAux : Nat → List Char → List Char → List Char
  | 0, _, _ => []
  | _ + 1, _, [] => []
  | fuel + 1, pat, c :: cs =>
    if pat ≠ [] ∧ pat.isPrefixOf (c :: cs) then
      stripPatAux fuel pat (List.drop (pat.length - 1) cs)
    else
      c :: stripPatAux fuel pat cs

/-- `text.replace(/pat/g, '')`: delete every (left-most, non-overlapping)
occurrence of `pat`. -/
def stripPat (pat s : List Char) : List Char :=
  stripPatAux s.length pat s

/-- The pattern deleted first by `extractJSON`. -/
def fenceJson : List Char := [backtick, backtick, backtick, 'j', 's', 'o', 'n']

/-- The pattern deleted second by `extractJSON`. -/
def fenceTicks : List Char := [backtick, backtick, backtick]

/-- The cleaning phase of `extractJSON`:
`text.replace(/```json/g, '').replace(/```/g, '').trim()`. -/
def cleanText (text : List Char) : List Char :=
  trimChars (stripPat fenceTicks (stripPat fenceJson text))

/-- `s.indexOf(c)` as an `Option` (JS returns `-1` for `none`). -/
def firstIdx? (c : Char) : List Char → Option Nat
  | [] => none
  | x :: xs => if x = c then some 0 else (firstIdx? c xs).map (· + 1)

/-- `s.lastIndexOf(c)` as an `Option` (JS returns `-1` for `none`). -/
def lastIdx? (c : Char) (l : List Char) : Option Nat :=
  (firstIdx? c l.reverse).map (fun i => l.length - 1 - i)

/-- `s.substring(a, b)`: JS swaps the bounds when `a > b` and clamps to the
string length (`take`/`drop` clamp for free). -/
def jsSubstring (l : List Char) (a b : Nat) : List Char :=
  (l.drop (min a b)).take (max a b - min a b)

/-! ## `extractJSON` (src/index.tsx lines 56-67)

The whole body sits in a `try { ... } catch { return null }`; `JSON.parse`
is the only throwing operation, abstracted as `parse` returning `Except`.
A thrown decode error is therefore mapped to `none`, as is the explicit
`return null` taken when `'{'` or `'}'` is absent. -/

def extractJSON {α : Type} (parse : List Char → Except String α)
    (text : List Char) : Option α :=
  match firstIdx? '{' (cleanText text), lastIdx? '}' (cleanText text) with
  | some s, some e =>
    match parse (jsSubstring (cleanText text) s (e + 1)) with
    | Except.ok v => some v
    | Except.error _ => none
  | _, _ => none

/-! ## Data model (src/index.tsx lines 20-48) -/

/-- One planned destination (`interface ErrandStop`).  Enum-typed fields are
strings because `JSON.parse` performs no validation in the source. -/
structure ErrandStop where
  id : String
  name : String
  address : String
  category : String
  reason : String
  arrivalEstimate : String
  parkingDifficulty : String
  crowdLevel : String
  googleMapsUrl : String
  parkingAdvice : Option String
  trafficNote : Option String
deriving DecidableEq

/-- One complete plan (`interface ErrandPlan`). -/
structure ErrandPlan where
  summary : String
  stops : List ErrandStop
  totalTime : String
  efficiencyScore : Rat
  alternatives : Option (List (String × String × String))
  householdSuggestions : Option (List String)
  reasoning : String
deriving DecidableEq

/-- One citation (`interface GroundingLink`). -/
structure GroundingLink where
  title : String
  uri : String
deriving DecidableEq

/-- The `chunk.maps` object of a grounding chunk; both fields may be
absent, and an empty string is falsy in JS, which the extraction code
tests with truthiness. -/
structure MapsInfo where
  title : Option String
  uri : Option String
deriving DecidableEq

/-- One entry of `groundingMetadata.groundingChunks`. -/
structure Chunk where
  maps : Option MapsInfo
deriving DecidableEq

/-- The relevant part of the external service's response: the text payload
and `candidates?.[0]?.groundingMetadata?.groundingChunks` (`none` models a
missing or non-array field, the `Array.isArray` guard). -/
structure SvcResponse where
  text : List Char
  chunks : Option (List Chunk)
deriving DecidableEq

/-- A geographic coordinate (`{ lat, lng }`).  The JS numbers carry no
arithmetic in the source, so exact rationals are used. -/
structure Coord where
  lat : Rat
  lng : Rat
deriving DecidableEq

/-- The component state of `ErrandOS` (the `useState` hooks,
src/index.tsx lines 71-79). -/
structure AppState where
  input : String
  isListening : Bool
  isLoading : Bool
  plan : Option ErrandPlan
  groundingLinks : List GroundingLink
  location : Option Coord
  locationName : String
  error : Option String
  history : List String
deriving DecidableEq

/-- The initial state of the `ErrandOS` component. -/
def initialState : AppState :=
  { input := ""
    isListening := false
    isLoading := false
    plan := none
    groundingLinks := []
    location := none
    locationName := "Locating..."
    error := none
    history := [] }

/-! ## Citation extraction (src/index.tsx lines 188-199 and
src/unnamed/part_000 lines 194-205) -/

/-- `String(chunk.maps.title || 'Map Location')`: JS `||` falls through on
a missing or empty (falsy) title. -/
def jsTitleOr (t : Option String) (d : String) : String :=
  match t with
  | some s => if s = "" then d else s
  | none => d

/-- The `GroundingLink` produced for one chunk by `ErrandOS`
(src/index.tsx): guard `chunk?.maps?.uri` (truthy uri), default title. -/
def chunkLinkOS (c : Chunk) : Option GroundingLink :=
  match c.maps with
  | none => none
  | some m =>
    match m.uri with
    | none => none
    | some u =>
      if u = "" then none
      else some { title := jsTitleOr m.title "Map Location", uri := u }

/-- The `GroundingLink` produced for one chunk by `ErrandOptimizer`
(src/unnamed/part_000): guard `chunk?.maps?.title && chunk?.maps?.uri`
requires BOTH a truthy title and a truthy uri. -/
def chunkLinkOpt (c : Chunk) : Option GroundingLink :=
  match c.maps with
  | none => none
  | some m =>
    match m.title, m.uri with
    | some t, some u =>
      if t = "" ∨ u = "" then none else some { title := t, uri := u }
    | _, _ => none

/-- The `sources` list built by `ErrandOS.generatePlan`; a missing or
non-array `groundingChunks` yields `[]`. -/
def extractSourcesOS (chunks : Option (List Chunk)) : List GroundingLink :=
  match chunks with
  | none => []
  | some cs => cs.filterMap chunkLinkOS

/-- The `sources` list built by `ErrandOptimizer.generatePlan`. -/
def extractSourcesOptimizer (chunks : Option (List Chunk)) : List GroundingLink :=
  match chunks with
  | none => []
  | some cs => cs.filterMap chunkLinkOpt

/-! ## `generatePlan` (src/index.tsx lines 133-210)

The external call is abstracted as `svc : Except String SvcResponse`
(`Except.error` models a thrown network/service failure carrying
`err.message`).  All state writes of one invocation are collected into the
returned `AppState`. -/

/-- Message of the error thrown when `extractJSON` returns `null`. -/
def noPlanMsg : String :=
  "Critical: AI response contained no valid plan data. Please try again with more specific details."

/-- Fallback used by `err.message || 'Spatial processing interrupted.'`. -/
def genericFailMsg : String := "Spatial processing interrupted."

/-- The `try` body after the service call: either the raised failure
message (`err.message || 'Spatial processing interrupted.'` for a service
throw, the `Critical: ...` message for a `null` extraction), or the parsed
plan together with the collected grounding sources. -/
def runTry (parse : List Char → Except String ErrandPlan) :
    Except String SvcResponse → Except String (ErrandPlan × List GroundingLink)
  | Except.error e => Except.error (if e = "" then genericFailMsg else e)
  | Except.ok resp =>
    match extractJSON parse resp.text with
    | none => Except.error noPlanMsg
    | some p => Except.ok (p, extractSourcesOS resp.chunks)

/-- The net state transition of one run of `ErrandOS.generatePlan(isReroute)`:
the blank-input guard; then, over the state, the accumulated effect of
`setIsLoading(true)`, `setError(null)`, the `try` body (`runTry`), the
`catch` (`setError(err.message || ...)`), and the `finally`
(`setIsLoading(false)`, which makes the net busy flag `false` on every
post-guard path). -/
def generatePlan (isReroute : Bool) (svc : Except String SvcResponse)
    (parse : List Char → Except String ErrandPlan) (st : AppState) : AppState :=
  if trimChars st.input.toList = [] ∧ isReroute = false then st
  else
    match runTry parse svc with
    | Except.error msg => { st with isLoading := false, error := some msg }
    | Except.ok pl =>
      { st with
        isLoading := false
        error := none
        plan := some pl.1
        groundingLinks := pl.2
        history := if isReroute then st.history
                   else (st.input :: st.history).take 5 }

/-! ## Voice toggle (src/index.tsx lines 118-131, identical in
src/unnamed/part_000 lines 106-119) -/

/-- The listening flag and user-facing error of the voice state machine. -/
structure VoiceState where
  isListening : Bool
  error : Option String
deriving DecidableEq

/-- Error message of the `catch` block of `toggleListening`. -/
def micUnavailableMsg : String := "Microphone access is unavailable."

/-- One invocation of `toggleListening`.  `rec` models
`recognitionRef.current`: `none` when the platform lacks
`SpeechRecognition` (optional chaining makes `?.start()` a silent no-op),
`some (Except.error _)` when `start()` throws (handled by the `catch`),
`some (Except.ok _)` when it starts normally. -/
def toggleListening (rec : Option (Except String Unit)) (st : VoiceState) : VoiceState :=
  if st.isListening then
    { st with isListening := false }
  else
    let st1 : VoiceState := { st with error := none }
    match rec with
    | some (Except.error _) => { st1 with error := some micUnavailableMsg }
    | _ => { st1 with isListening := true }

/-! ## Geolocation error callbacks (src/index.tsx lines 110-114 and
src/unnamed/part_000 lines 97-101) -/

/-- The fixed fallback coordinate. -/
def fallbackCoord : Coord := { lat := 37.7749, lng := -122.4194 }

/-- Advisory set by the `ErrandOptimizer` geolocation error callback. -/
def geoDeniedMsg : String :=
  "Location access denied. Routing from default hub (San Francisco)."

/-- The `ErrandOS` geolocation error callback (src/index.tsx): stores the
fallback coordinate and label only. -/
def geoErrorOS (st : AppState) : AppState :=
  { st with location := some fallbackCoord, locationName := "San Francisco, CA" }

/-- The `ErrandOptimizer` geolocation error callback
(src/unnamed/part_000): additionally surfaces an advisory via `setError`. -/
def geoErrorOpt (st : AppState) : AppState :=
  { st with
    error := some geoDeniedMsg
    location := some fallbackCoord
    locationName := "San Francisco, CA" }

/-! ## `getMultiStopMapsUrl` (src/index.tsx lines 212-218, identical in
src/unnamed/part_000 lines 218-224) -/

/-- Uppercase hexadecimal digit. -/
def hexDigit (n : Nat) : Char :=
  if n < 10 then Char.ofNat (48 + n) else Char.ofNat (55 + n)

/-- UTF-8 bytes of a code point. -/
def utf8BytesOf (n : Nat) : List Nat :=
  if n < 128 then [n]
  else if n < 2048 then [192 + n / 64, 128 + n % 64]
  else if n < 65536 then [224 + n / 4096, 128 + (n / 64) % 64, 128 + n % 64]
  else [240 + n / 262144, 128 + (n / 4096) % 64, 128 + (n / 64) % 64, 128 + n % 64]

/-- Characters `encodeURIComponent` leaves unescaped: ASCII letters,
digits, and `- _ . ! ~ * ' ( )` (given by code point). -/
def isUriUnreserved (c : Char) : Bool :=
  c.isAlphanum || c.toNat ∈ [45, 95, 46, 33, 126, 42, 39, 40, 41]

/-- Percent-encoding of one byte. -/
def pctByte (b : Nat) : List Char :=
  ['%', hexDigit (b / 16), hexDigit (b % 16)]

/-- The JS builtin `encodeURIComponent`. -/
def encodeURIComponent (s : String) : String :=
  ⟨s.toList.flatMap fun c =>
    if isUriUnreserved c then [c]
    else (utf8BytesOf c.toNat).flatMap pctByte⟩

/-- `Array.prototype.join(sep)`. -/
def joinSegs (sep : String) : List String → String
  | [] => ""
  | [a] => a
  | a :: b :: rest => a ++ sep ++ joinSegs sep (b :: rest)

/-- `${location?.lat}` / `${location?.lng}`: JS renders `undefined` when
the location is absent; `renderNum` abstracts JS number-to-string. -/
def jsCoordStr (renderNum : Rat → String) (loc : Option Coord) (f : Coord → Rat) : String :=
  match loc with
  | some c => renderNum (f c)
  | none => "undefined"

/-- `getMultiStopMapsUrl()`: `'#'` without a plan, else the base directions
URL, the origin coordinate pair, a `/`, and the URL-escaped stop addresses
joined with `/`.  (`plan.stops` is always a list here, so the
`!plan.stops` guard of the source cannot fire in the model.) -/
def getMultiStopMapsUrl (renderNum : Rat → String) (loc : Option Coord)
    (plan : Option ErrandPlan) : String :=
  match plan with
  | none => "#"
  | some p =>
    let base := "https://www.google.com/maps/dir/"
    let start := jsCoordStr renderNum loc (·.lat) ++ "," ++ jsCoordStr renderNum loc (·.lng) ++ "/"
    let stopsStr := joinSegs "/" (p.stops.map fun s => encodeURIComponent s.address)
    base ++ start ++ stopsStr

/-- The derived outbound link of a component state. -/
def stateMapsUrl (renderNum : Rat → String) (st : AppState) : String :=
  getMultiStopMapsUrl renderNum st.location st.plan

/-! ## Iterated generations (for the RequestHistory claims) -/

/-- Set the input (a user edit) and run one non-reroute generation. -/
def genStep (parse : List Char → Except String ErrandPlan)
    (g : String × Except String SvcResponse) (st : AppState) : AppState :=
  generatePlan false g.2 parse { st with input := g.1 }

/-- A generation request that succeeds: non-blank input, service success,
and a decodable plan in the response text. -/
def genOK (parse : List Char → Except String ErrandPlan)
    (g : String × Except String SvcResponse) : Prop :=
  trimChars g.1.toList ≠ [] ∧
    ∃ r, g.2 = Except.ok r ∧ ∃ p, extractJSON parse r.text = some p

/-! ## Helper lemmas -/

lemma firstIdx_append_of_not_mem (c : Char) (p q : List Char) (h : c ∉ p) :
    firstIdx? c (p ++ q) = (firstIdx? c q).map (· + p.length) := by
  induction p with
  | nil =>
    simp only [List.nil_append, List.length_nil]
    cases firstIdx? c q <;> rfl
  | cons a p ih =>
    have ha : a ≠ c := fun hac => h (by simp [hac])
    have hp : c ∉ p := fun hcp => h (List.mem_cons_of_mem a hcp)
    rw [List.cons_append,
      show firstIdx? c (a :: (p ++ q))
          = if a = c then some 0 else (firstIdx? c (p ++ q)).map (· + 1) from rfl,
      if_neg ha, ih hp]
    cases firstIdx? c q <;> rfl

lemma firstIdx_cons_self (c : Char) (xs : List Char) :
    firstIdx? c (c :: xs) = some 0 := by
  simp [firstIdx?]

lemma firstIdx_of_not_mem_left (c : Char) (p q : List Char) (h : c ∉ p) :
    firstIdx? c (p ++ c :: q) = some p.length := by
  rw [firstIdx_append_of_not_mem c p _ h, firstIdx_cons_self]
  simp

lemma lastIdx_of_not_mem_right (c : Char) (l q : List Char) (h : c ∉ q) :
    lastIdx? c (l ++ c :: q) = some l.length := by
  rw [lastIdx?, List.reverse_append, List.reverse_cons, List.append_assoc,
    firstIdx_append_of_not_mem c q.reverse _ (by simpa using h),
    show ([c] ++ l.reverse) = c :: l.reverse from rfl, firstIdx_cons_self]
  simp [List.length_append]

lemma take_len_append (p q : List Char) : (p ++ q).take p.length = p := by
  induction p with
  | nil => simp
  | cons a p ih => simp [ih]

lemma drop_len_append (p q : List Char) : (p ++ q).drop p.length = q := by
  induction p with
  | nil => simp
  | cons a p ih => simp [ih]

/-! ## C1 -/

/-- C1: for any response text whose cleaned form (fences stripped,
whitespace trimmed) consists of a well-formed JSON object — the substring
running from the first `'{'` to the last `'}'` — surrounded by prose with
no earlier `'{'` and no later `'}'`, `extractJSON` extracts exactly that
substring and returns its decoded value. -/
theorem extractJSON_extracts_embedded_object {α : Type}
    (parse : List Char → Except String α) (text pre mid post : List Char) (v : α)
    (hclean : cleanText text = pre ++ ('{' :: (mid ++ ['}'])) ++ post)
    (hpre : '{' ∉ pre) (hpost : '}' ∉ post)
    (hparse : parse ('{' :: (mid ++ ['}'])) = Except.ok v) :
    extractJSON parse text = some v := by
  have e1 : pre ++ ('{' :: (mid ++ ['}'])) ++ post
      = pre ++ '{' :: (mid ++ '}' :: post) := by simp
  have e2 : pre ++ ('{' :: (mid ++ ['}'])) ++ post
      = (pre ++ '{' :: mid) ++ '}' :: post := by simp
  have h1 : firstIdx? '{' (cleanText text) = some pre.length := by
    rw [hclean, e1, firstIdx_of_not_mem_left '{' pre _ hpre]
  have h2 : lastIdx? '}' (cleanText text) = some (pre.length + mid.length + 1) := by
    rw [hclean, e2, lastIdx_of_not_mem_right '}' _ post hpost]
    simp [List.length_append]
    omega
  have harith : pre.length + mid.length + 1 + 1 - pre.length
      = ('{' :: (mid ++ ['}'])).length := by
    simp [List.length_cons, List.length_append]
    omega
  have hsub : jsSubstring (cleanText text) pre.length (pre.length + mid.length + 1 + 1)
      = '{' :: (mid ++ ['}']) := by
    rw [hclean]
    unfold jsSubstring
    rw [Nat.min_eq_left (by omega), Nat.max_eq_right (by omega),
      List.append_assoc, drop_len_append, harith, take_len_append]
  simp only [extractJSON, h1, h2, hsub, hparse]

/-- A concrete response text: prose, a ```json fence, an embedded object,
a closing fence, and trailing prose. -/
def fencedResponse : List Char :=
  ['S', 'u', 'r', 'e', '!', ' '] ++ fenceJson ++ ['\n', '{', 'a', '}', '\n'] ++
    fenceTicks ++ [' ', 'o', 'k']

/-- A decoder accepting exactly the object text `{a}`. -/
def parseW : List Char → Except String Nat :=
  fun l => if l = ['{', 'a', '}'] then Except.ok 1 else Except.error "bad json"

/-- Witness for C1 at a concrete fenced, prose-surrounded response. -/
theorem extractJSON_extracts_embedded_object_witness :
    extractJSON parseW fencedResponse = some 1 :=
  extractJSON_extracts_embedded_object parseW fencedResponse
    ['S', 'u', 'r', 'e', '!', ' ', '\n'] ['a'] ['\n', ' ', 'o', 'k'] 1
    (by decide) (by decide) (by decide) (by rfl)

/-! ## C10 -/

/-- C10: `extractJSON` is total — for every input it either returns the
value decoded from the extracted first-`'{'`-to-last-`'}'` substring, or
`none`; every failure (no brace found, or a decode error thrown by
`JSON.parse`, modelled as `Except.error`) is mapped to `none`, never
propagated. -/
theorem extractJSON_total_or_null {α : Type}
    (parse : List Char → Except String α) (text : List Char) :
    (∃ v, extractJSON parse text = some v ∧
      ∃ s e, firstIdx? '{' (cleanText text) = some s ∧
        lastIdx? '}' (cleanText text) = some e ∧
        parse (jsSubstring (cleanText text) s (e + 1)) = Except.ok v) ∨
    extractJSON parse text = none := by
  unfold extractJSON
  cases h1 : firstIdx? '{' (cleanText text) with
  | none => exact Or.inr rfl
  | some s =>
    cases h2 : lastIdx? '}' (cleanText text) with
    | none => exact Or.inr rfl
    | some e =>
      cases h3 : parse (jsSubstring (cleanText text) s (e + 1)) with
      | ok v =>
        refine Or.inl ⟨v, ?_, s, e, rfl, rfl, h3⟩
        simp [h3]
      | error msg =>
        refine Or.inr ?_
        simp [h3]

/-! ## C2 -/

/-- C2: on every failing generation or reroute request — service failure,
or no/malformed JSON (`extractJSON` returns `null`) — the previously held
plan and grounding-link list are left exactly as they were. -/
theorem generatePlan_failure_preserves_plan_state
    (isReroute : Bool) (svc : Except String SvcResponse)
    (parse : List Char → Except String ErrandPlan) (st : AppState)
    (hfail : (∃ e, svc = Except.error e) ∨
      ∃ r, svc = Except.ok r ∧ extractJSON parse r.text = none) :
    (generatePlan isReroute svc parse st).plan = st.plan ∧
      (generatePlan isReroute svc parse st).groundingLinks = st.groundingLinks := by
  unfold generatePlan
  by_cases hg : trimChars st.input.toList = [] ∧ isReroute = false
  · rw [if_pos hg]
    exact ⟨rfl, rfl⟩
  · rw [if_neg hg]
    have hrun : ∃ msg, runTry parse svc = Except.error msg := by
      rcases hfail with ⟨e, rfl⟩ | ⟨r, rfl, hx⟩
      · exact ⟨_, rfl⟩
      · refine ⟨noPlanMsg, ?_⟩
        simp only [runTry, hx]
    obtain ⟨msg, hrun⟩ := hrun
    rw [hrun]
    exact ⟨rfl, rfl⟩

/-- Witness for C2: a service failure on a state already holding a plan
and one grounding link changes neither. -/
theorem generatePlan_failure_preserves_plan_state_witness :
    (generatePlan false (Except.error "network down")
        (fun _ => Except.error "unused")
        { initialState with
          input := "milk, stamps"
          plan := some { summary := "s", stops := [], totalTime := "1h",
                         efficiencyScore := 90, alternatives := none,
                         householdSuggestions := none, reasoning := "r" }
          groundingLinks := [{ title := "t", uri := "u" }] }).plan
      = some { summary := "s", stops := [], totalTime := "1h",
               efficiencyScore := 90, alternatives := none,
               householdSuggestions := none, reasoning := "r" } ∧
    (generatePlan false (Except.error "network down")
        (fun _ => Except.error "unused")
        { initialState with
          input := "milk, stamps"
          plan := some { summary := "s", stops := [], totalTime := "1h",
                         efficiencyScore := 90, alternatives := none,
                         householdSuggestions := none, reasoning := "r" }
          groundingLinks := [{ title := "t", uri := "u" }] }).groundingLinks
      = [{ title := "t", uri := "u" }] :=
  generatePlan_failure_preserves_plan_state false (Except.error "network down")
    (fun _ => Except.error "unused") _ (Or.inl ⟨"network down", rfl⟩)

/-! ## C7 -/

/-- C7: every generation or reroute request that actually starts (non-blank
input, or reroute mode) ends with the busy indicator cleared, on success
and on every failure path alike (the `finally` block). -/
theorem generatePlan_clears_busy
    (isReroute : Bool) (svc : Except String SvcResponse)
    (parse : List Char → Except String ErrandPlan) (st : AppState)
    (h : trimChars st.input.toList ≠ [] ∨ isReroute = true) :
    (generatePlan isReroute svc parse st).isLoading = false := by
  unfold generatePlan
  have hg : ¬(trimChars st.input.toList = [] ∧ isReroute = false) := by
    rcases h with h | h
    · exact fun hc => h hc.1
    · intro hc
      rw [h] at hc
      exact Bool.noConfusion hc.2
  rw [if_neg hg]
  cases hrun : runTry parse svc <;> rfl

/-- Witness for C7: a failing reroute from a busy state ends not busy. -/
theorem generatePlan_clears_busy_witness :
    (generatePlan true (Except.error "boom") (fun _ => Except.error "unused")
      { initialState with isLoading := true }).isLoading = false :=
  generatePlan_clears_busy true (Except.error "boom") (fun _ => Except.error "unused")
    { initialState with isLoading := true } (Or.inr rfl)

/-! ## C9 -/

/-- C9: a reroute generation — succeeding or failing, whatever the service
returns and whatever the decoder does — never changes RequestHistory. -/
theorem reroute_preserves_history (svc : Except String SvcResponse)
    (parse : List Char → Except String ErrandPlan) (st : AppState) :
    (generatePlan true svc parse st).history = st.history := by
  unfold generatePlan
  rw [if_neg (by simp)]
  cases hrun : runTry parse svc <;> rfl

/-! ## C3 -/

lemma generatePlan_success_history (svc : Except String SvcResponse)
    (r : SvcResponse) (p : ErrandPlan)
    (parse : List Char → Except String ErrandPlan) (st : AppState)
    (hin : trimChars st.input.toList ≠ []) (hsvc : svc = Except.ok r)
    (hx : extractJSON parse r.text = some p) :
    (generatePlan false svc parse st).history = (st.input :: st.history).take 5 := by
  subst hsvc
  have hrun : runTry parse (Except.ok r)
      = Except.ok (p, extractSourcesOS r.chunks) := by
    simp only [runTry, hx]
  unfold generatePlan
  rw [if_neg (fun hc => hin hc.1), hrun]
  rfl

lemma genStep_history (parse : List Char → Except String ErrandPlan)
    (g : String × Except String SvcResponse) (st : AppState)
    (h : genOK parse g) :
    (genStep parse g st).history = (g.1 :: st.history).take 5 := by
  obtain ⟨hin, r, hsvc, p, hx⟩ := h
  exact generatePlan_success_history g.2 r p parse { st with input := g.1 } hin hsvc hx

/-- C3: RequestHistory invariants of `generatePlan` — (1) the history never
grows beyond 5 entries; (2) every successful non-reroute generation
prepends the current request text (most-recent-first) and truncates to
capacity 5; (3) after six successful non-reroute generations starting from
an empty history the held history is the last five inputs, newest first,
and the first (oldest) input has been evicted whenever the inputs are
distinct. -/
theorem requestHistory_capacity_and_order
    (parse : List Char → Except String ErrandPlan) :
    (∀ (isReroute : Bool) (svc : Except String SvcResponse) (st : AppState),
      st.history.length ≤ 5 →
      (generatePlan isReroute svc parse st).history.length ≤ 5) ∧
    (∀ (svc : Except String SvcResponse) (r : SvcResponse) (p : ErrandPlan)
        (st : AppState),
      trimChars st.input.toList ≠ [] → svc = Except.ok r →
      extractJSON parse r.text = some p →
      (generatePlan false svc parse st).history = (st.input :: st.history).take 5) ∧
    (∀ (g1 g2 g3 g4 g5 g6 : String × Except String SvcResponse) (st : AppState),
      st.history = [] →
      genOK parse g1 → genOK parse g2 → genOK parse g3 →
      genOK parse g4 → genOK parse g5 → genOK parse g6 →
      ((genStep parse g6 (genStep parse g5 (genStep parse g4 (genStep parse g3
          (genStep parse g2 (genStep parse g1 st)))))).history
        = [g6.1, g5.1, g4.1, g3.1, g2.1]) ∧
      (((g1.1 = g2.1 ∨ g1.1 = g3.1 ∨ g1.1 = g4.1 ∨ g1.1 = g5.1 ∨ g1.1 = g6.1) → False) →
        g1.1 ∉ (genStep parse g6 (genStep parse g5 (genStep parse g4 (genStep parse g3
          (genStep parse g2 (genStep parse g1 st)))))).history)) := by
  refine ⟨?_, ?_, ?_⟩
  · intro isReroute svc st h
    unfold generatePlan
    by_cases hg : trimChars st.input.toList = [] ∧ isReroute = false
    · rw [if_pos hg]
      exact h
    · rw [if_neg hg]
      cases hrun : runTry parse svc with
      | error msg => exact h
      | ok pl =>
        cases isReroute with
        | false => simp [List.length_take]
        | true => exact h
  · exact fun svc r p st hin hsvc hx =>
      generatePlan_success_history svc r p parse st hin hsvc hx
  · intro g1 g2 g3 g4 g5 g6 st hst h1 h2 h3 h4 h5 h6
    have e1 : (genStep parse g1 st).history = [g1.1] := by
      rw [genStep_history parse g1 st h1, hst]
      rfl
    have e2 : (genStep parse g2 (genStep parse g1 st)).history = [g2.1, g1.1] := by
      rw [genStep_history parse g2 _ h2, e1]
      rfl
    have e3 : (genStep parse g3 (genStep parse g2 (genStep parse g1 st))).history
        = [g3.1, g2.1, g1.1] := by
      rw [genStep_history parse g3 _ h3, e2]
      rfl
    have e4 : (genStep parse g4 (genStep parse g3 (genStep parse g2
        (genStep parse g1 st)))).history = [g4.1, g3.1, g2.1, g1.1] := by
      rw [genStep_history parse g4 _ h4, e3]
      rfl
    have e5 : (genStep parse g5 (genStep parse g4 (genStep parse g3 (genStep parse g2
        (genStep parse g1 st))))).history = [g5.1, g4.1, g3.1, g2.1, g1.1] := by
      rw [genStep_history parse g5 _ h5, e4]
      rfl
    have e6 : (genStep parse g6 (genStep parse g5 (genStep parse g4 (genStep parse g3
        (genStep parse g2 (genStep parse g1 st)))))).history
        = [g6.1, g5.1, g4.1, g3.1, g2.1] := by
      rw [genStep_history parse g6 _ h6, e5]
      rfl
    refine ⟨e6, ?_⟩
    intro hdist
    rw [e6]
    intro hmem
    apply hdist
    simp only [List.mem_cons, List.not_mem_nil, or_false] at hmem
    rcases hmem with h | h | h | h | h
    · exact Or.inr (Or.inr (Or.inr (Or.inr h)))
    · exact Or.inr (Or.inr (Or.inr (Or.inl h)))
    · exact Or.inr (Or.inr (Or.inl h))
    · exact Or.inr (Or.inl h)
    · exact Or.inl h

/-- A minimal plan value used in concrete scenarios. -/
def planW : ErrandPlan :=
  { summary := "", stops := [], totalTime := "", efficiencyScore := 0,
    alternatives := none, householdSuggestions := none, reasoning := "" }

/-- A decoder accepting exactly the response object `{a}` as `planW`. -/
def parsePlanW : List Char → Except String ErrandPlan :=
  fun l => if l = ['{', 'a', '}'] then Except.ok planW else Except.error "bad json"

/-- A successful service response carrying the object `{a}` and no
grounding metadata. -/
def respW : SvcResponse := { text := ['{', 'a', '}'], chunks := none }

/-- Witness for C3: six successful generations with inputs `a`..`f` from
the initial state leave exactly the last five, newest first. -/
theorem requestHistory_capacity_and_order_witness :
    (genStep parsePlanW ("f", Except.ok respW) (genStep parsePlanW ("e", Except.ok respW)
      (genStep parsePlanW ("d", Except.ok respW) (genStep parsePlanW ("c", Except.ok respW)
      (genStep parsePlanW ("b", Except.ok respW) (genStep parsePlanW ("a", Except.ok respW)
      initialState)))))).history = ["f", "e", "d", "c", "b"] := by
  have hok : ∀ s : String, trimChars s.toList ≠ [] → genOK parsePlanW (s, Except.ok respW) :=
    fun s hs => ⟨hs, respW, rfl, planW, by rfl⟩
  exact ((requestHistory_capacity_and_order parsePlanW).2.2
    ("a", Except.ok respW) ("b", Except.ok respW) ("c", Except.ok respW)
    ("d", Except.ok respW) ("e", Except.ok respW) ("f", Except.ok respW)
    initialState rfl
    (hok "a" (by decide)) (hok "b" (by decide)) (hok "c" (by decide))
    (hok "d" (by decide)) (hok "e" (by decide)) (hok "f" (by decide))).1

/-! ## C4 -/

/-- C4 counterexample: in the `ErrandOptimizer` component a grounding
chunk carrying a usable URI but no title is dropped, not included with a
default title — its extraction yields the empty list. -/
theorem optimizer_drops_untitled_link_cex :
    extractSourcesOptimizer
      (some [{ maps := some { title := none, uri := some "https://maps.example/p" } }])
      = [] := rfl

/-- C4 (amended): in both components a chunk without a usable (truthy) URI
is silently excluded; a chunk with a URI but no title is included with the
default title `Map Location` by `ErrandOS`, but excluded by
`ErrandOptimizer`, whose guard also demands a truthy title; missing or
non-array metadata yields zero citations. -/
theorem citation_extraction_uri_title_rules (u : String) (mt : Option String)
    (hu : u ≠ "") :
    chunkLinkOS { maps := some { title := none, uri := some u } }
      = some { title := "Map Location", uri := u } ∧
    chunkLinkOpt { maps := some { title := none, uri := some u } } = none ∧
    chunkLinkOS { maps := some { title := mt, uri := none } } = none ∧
    chunkLinkOpt { maps := some { title := mt, uri := none } } = none ∧
    chunkLinkOS { maps := some { title := mt, uri := some "" } } = none ∧
    chunkLinkOpt { maps := some { title := mt, uri := some "" } } = none ∧
    chunkLinkOS { maps := none } = none ∧
    chunkLinkOpt { maps := none } = none ∧
    extractSourcesOS none = [] ∧
    extractSourcesOptimizer none = [] := by
  refine ⟨?_, rfl, rfl, ?_, rfl, ?_, rfl, rfl, rfl, rfl⟩
  · simp [chunkLinkOS, jsTitleOr, hu]
  · cases mt <;> rfl
  · cases mt with
    | none => rfl
    | some t => simp [chunkLinkOpt]

/-- Witness for C4's amended statement at a concrete URI and title. -/
theorem citation_extraction_uri_title_rules_witness :
    chunkLinkOS { maps := some { title := none, uri := some "https://maps.example/p" } }
      = some { title := "Map Location", uri := "https://maps.example/p" } :=
  (citation_extraction_uri_title_rules "https://maps.example/p" (some "T")
    (by decide)).1

/-! ## C5 -/

/-- C5 counterexample: on a platform without speech recognition
(`recognitionRef.current` stays `null`), activating the toggle from `Idle`
sets the listening flag — the state machine is left in `Listening`, not
`Idle`. -/
theorem voice_toggle_no_platform_cex :
    (toggleListening none { isListening := false, error := none }).isListening
      = true := rfl

/-- C5 (amended): on a platform without speech capability the toggle never
raises — `?.start()` is a silent no-op — but a toggle from `Idle` enters
`Listening` (clearing the error), and a second toggle returns to `Idle`;
when `start()` does throw, the exception is caught and surfaced as the
microphone-unavailable message with the state left `Idle`. -/
theorem voice_toggle_no_platform_behavior (e : Option String) :
    toggleListening none { isListening := false, error := e }
      = { isListening := true, error := none } ∧
    toggleListening none (toggleListening none { isListening := false, error := e })
      = { isListening := false, error := none } ∧
    (∀ msg : String,
      toggleListening (some (Except.error msg)) { isListening := false, error := e }
        = { isListening := false, error := some micUnavailableMsg }) :=
  ⟨rfl, rfl, fun _ => rfl⟩

/-! ## C6 -/

/-- C6 counterexample: the `ErrandOS` geolocation error callback stores
the fallback but surfaces no advisory — the error slot stays `none`. -/
theorem geo_error_os_no_advisory_cex :
    (geoErrorOS initialState).error = none := rfl

/-- C6 (amended): on geolocation denial or failure both components store
the fixed fallback coordinate (37.7749, -122.4194) and the fixed label
`San Francisco, CA`; the `ErrandOptimizer` component also surfaces a
non-fatal advisory, while the `ErrandOS` component leaves the error slot
untouched (no advisory). -/
theorem geolocation_fallback_behavior (st : AppState) :
    (geoErrorOS st).location = some { lat := 37.7749, lng := -122.4194 } ∧
    (geoErrorOS st).locationName = "San Francisco, CA" ∧
    (geoErrorOS st).error = st.error ∧
    (geoErrorOpt st).location = some { lat := 37.7749, lng := -122.4194 } ∧
    (geoErrorOpt st).locationName = "San Francisco, CA" ∧
    (geoErrorOpt st).error = some geoDeniedMsg :=
  ⟨rfl, rfl, rfl, rfl, rfl, rfl⟩

/-! ## C8 -/

lemma strAppend_assoc (a b c : String) : a ++ b ++ c = a ++ (b ++ c) := by
  apply String.ext
  simp [String.data_append]

lemma strAppend_empty (a : String) : a ++ "" = a := by
  apply String.ext
  simp [String.data_append]

/-- C8: for every held plan with a known origin, the derived outbound link
is the directions base URL followed by the origin coordinate and then each
stop's URL-escaped address, in stop order, as successive `/`-joined path
segments (with no stops, just the base URL and the coordinate segment). -/
theorem maps_url_path_segments (renderNum : Rat → String) (st : AppState)
    (c : Coord) (p : ErrandPlan)
    (hloc : st.location = some c) (hplan : st.plan = some p) :
    (p.stops = [] →
      stateMapsUrl renderNum st
        = "https://www.google.com/maps/dir/" ++
          (renderNum c.lat ++ "," ++ renderNum c.lng) ++ "/") ∧
    (p.stops ≠ [] →
      stateMapsUrl renderNum st
        = "https://www.google.com/maps/dir/" ++
          joinSegs "/" ((renderNum c.lat ++ "," ++ renderNum c.lng) ::
            p.stops.map fun s => encodeURIComponent s.address)) := by
  constructor
  · intro hs
    unfold stateMapsUrl getMultiStopMapsUrl
    rw [hloc, hplan]
    dsimp only
    rw [hs]
    simp only [List.map_nil, joinSegs, jsCoordStr]
    simp [strAppend_assoc, strAppend_empty]
  · intro hstops
    unfold stateMapsUrl getMultiStopMapsUrl
    rw [hloc, hplan]
    dsimp only
    cases hs : p.stops with
    | nil => exact absurd hs hstops
    | cons a rest =>
      simp only [List.map_cons, joinSegs, jsCoordStr]
      simp [strAppend_assoc]

/-- The fallback coordinate as a held location. -/
def coordW : Coord := { lat := 37.7749, lng := -122.4194 }

/-- A concrete stop whose address needs URL escaping. -/
def stopW : ErrandStop :=
  { id := "1", name := "Store", address := "1 Main St, SF", category := "Grocery",
    reason := "", arrivalEstimate := "", parkingDifficulty := "Easy",
    crowdLevel := "Low", googleMapsUrl := "", parkingAdvice := none,
    trafficNote := none }

/-- `planW` with one concrete stop. -/
def planW8 : ErrandPlan := { planW with stops := [stopW] }

/-- A concrete JS number rendering for the two coordinates in play. -/
def renderW : Rat → String :=
  fun q => if q = (37.7749 : Rat) then "37.7749" else "-122.4194"

/-- Witness for C8 at a concrete one-stop plan and origin. -/
theorem maps_url_path_segments_witness :
    stateMapsUrl renderW { initialState with location := some coordW, plan := some planW8 }
      = "https://www.google.com/maps/dir/" ++
        joinSegs "/" ((renderW coordW.lat ++ "," ++ renderW coordW.lng) ::
          planW8.stops.map fun s => encodeURIComponent s.address) :=
  (maps_url_path_segments renderW
    { initialState with location := some coordW, plan := some planW8 }
    coordW planW8 rfl rfl).2 (by decide)
